import Mathlib

/-!
Verification development for `decompile.py`: a batch pipeline that discovers
Android packages on a third-party catalog site, diffs their published version
against a persisted per-package version ledger, downloads changed artifacts,
decompiles them with an external `jadx` subprocess, and records the processed
version.

The Python source is embedded shallowly: network responses, filesystem reads
and the decompiler subprocess become explicit environment values; the mutable
filesystem state that the claims mention (the per-package scratch download
directory and the version ledger) becomes an explicit state record threaded
through the translated functions.  Exceptions that the Python code does not
catch are modelled with `Except`: an `Except.error` result is an exception
propagating out of the translated function.
-/

namespace Decompile

/-! ### Version ledger  (`get_stored_version` / `save_version`, decompile.py:55-66)

One plain-text file per package under `versions/`, holding exactly the version
string.  Modelled as a partial map from package name to version string. -/

/-- The persisted version ledger: `some v` iff `versions/<package>.version`
exists with content `v` (post-`strip`). -/
def Ledger : Type := String → Option String

/-- Model of `get_stored_version` (decompile.py:55-60): read the stored version for a
package, `None` when no ledger file exists. -/
def get_stored_version (ledger : Ledger) (package : String) : Option String :=
  ledger package

/-- Model of `save_version` (decompile.py:63-66): overwrite the ledger file for
`package` with `version`. -/
def save_version (ledger : Ledger) (package version : String) : Ledger :=
  fun p => if p = package then some version else ledger p

/-! ### Version oracle  (`check_version`, decompile.py:152-172)

`check_version` fetches the app's detail page and applies two regex
extractions in order:
  (a) `"softwareVersion"\s*:\s*"([^"]+)"`  — the structured field; the
      character class `[^"]+` makes any match at least one character long;
  (b) `class="version"[^>]*>([^<]+)<`      — the fallback page element, whose
      raw match `[^<]+` is likewise nonempty, returned `.strip()`ped.
The page is modelled by the results of those two searches on its text. -/

/-- Result of the two regex searches `check_version` performs on a detail
page's text.  `none` = the pattern does not occur in the page. -/
structure AppPage where
  softwareVersion : Option String
  versionEl : Option String

/-- Model of `check_version` (decompile.py:152-172).  The argument is `none` when the
page request itself failed (`session.get` / `raise_for_status` raised, caught
at decompile.py:158). -/
def check_version (resp : Option AppPage) : Option String :=
  match resp with
  | none => none
  | some page =>
    match page.softwareVersion with
    | some v => some v
    | none =>
      match page.versionEl with
      | some s => some s.trim
      | none => none

/-! ### Artifact fetcher  (`download_apk`, decompile.py:179-239) -/

/-- Results of the two link-pattern searches on the download page's text
(decompile.py:197-198): `r2_links` matches `href="(/r2?u=...)"`,
`d_links` matches `href="(https://apkcombo.com/d?u=...)"`, each in page
order. -/
structure DownloadPage where
  r2_links : List String
  d_links : List String

/-- Which download-link shape was selected (decompile.py:200-206). -/
inductive DlLink
  | r2 (u : String)
  | cdn (u : String)
deriving DecidableEq, Repr

/-- Link selection of decompile.py:200-206: the first storage-redirect
(`/r2?u=`) link if any, else the first CDN-redirect (`/d?u=`) link, else
none (`"No download links found"`). -/
def select_link (page : DownloadPage) : Option DlLink :=
  match page.r2_links with
  | u :: _ => some (DlLink.r2 u)
  | [] =>
    match page.d_links with
    | u :: _ => some (DlLink.cdn u)
    | [] => none

/-- Environment for one `download_apk` call: the outcomes of its two network
requests and the filename derived from the response metadata.
`page = none` models the download-page request failing (caught at
decompile.py:190); `download = none` models the resolved-URL request failing
(caught at decompile.py:213); `download = some n` models a successful download
whose written payload is `n` bytes.  `fname` is the sanitized filename derived
from the content-disposition header / URL (decompile.py:217-226); its
derivation is character-level string work none of the claims touch, so the
resulting name is taken as an environment value. -/
structure FetchEnv where
  page : Option DownloadPage
  download : Option Nat
  fname : String

/-- The filesystem state the claims observe: the per-package scratch download
directory `apks/<package>/` (`none` = directory absent, `some files` = present
with those files) and the version ledger `versions/`. -/
structure St where
  apkDir : String → Option (List String)
  ledger : Ledger

/-- Replace the scratch-directory entry for one package. -/
def St.setDir (st : St) (package : String) (v : Option (List String)) : St :=
  { st with apkDir := fun p => if p = package then v else st.apkDir p }

/-- The 0.5 MB floor in bytes: `size_mb < 0.5` at decompile.py:233 with
`size_mb = st_size / (1024 * 1024)` holds exactly when `st_size < 524288`
(the division by the power of two and the comparison with 0.5 are exact in
binary floating point for any real file size). -/
def minApkBytes : Nat := 524288

/-- Model of `download_apk` (decompile.py:179-239).  Steps: clear and recreate the
scratch directory; fetch the download page; select a link; fetch it; write the
payload; reject (delete the file, keep the directory) when the payload is
under the 0.5 MB floor.  Returns the path (modelled by the filename) of the
kept payload, or `none` on any failure, together with the updated state. -/
def download_apk (env : FetchEnv) (package : String) (st : St) :
    Option String × St :=
  let st1 := st.setDir package (some [])
  match env.page with
  | none => (none, st1)
  | some page =>
    match select_link page with
    | none => (none, st1)
    | some _dl =>
      match env.download with
      | none => (none, st1)
      | some size =>
        let st2 := st1.setDir package (some [env.fname])
        if size < minApkBytes then
          (none, st2.setDir package (some []))
        else
          (some env.fname, st2)

/-! ### Expected-class count  (`count_dex_classes`, decompile.py:246-273)

The function opens the artifact as a zip, and for every `.dex` member with a
valid header reads the little-endian u32 class count at offset 96; `.apk`
members are opened as nested zips and scanned the same way.  The whole body
sits in `try ... except Exception: pass; return total`, and the nested-zip
block sits in its own inner `try ... except Exception: pass`.  Zip parsing is
opaque to the claims, so opening a byte payload as a zip is an abstract
environment function; per-member reads carry their own failure mode.  A
raised exception inside the outer `try` returns the total accumulated so far
(the remaining members contribute 0); one inside the inner `try` abandons only
the nested archive. -/

/-- Python's `str.endswith`: a plain suffix test on the character
sequences. -/
def pyEndswith (s suffix : String) : Bool :=
  suffix.toList.isSuffixOf s.toList

/-- One zip member as `count_dex_classes` sees it: its name and the outcome of
`zf.read(name)` (`Except.error` = the read raised). -/
structure ZipEntry where
  name : String
  readData : Except Unit (List Nat)

/-- The test `data[:4] == b"dex\n"` (decompile.py:257): the DEX magic bytes. -/
def isDexMagic (data : List Nat) : Bool :=
  data.take 4 = [100, 101, 120, 10]

/-- Model of `struct.unpack_from("<I", data, off)` (decompile.py:258): little-endian
u32 at byte offset `off`; `none` when fewer than 4 bytes remain there
(`struct.error`). -/
def readU32LE (data : List Nat) (off : Nat) : Option Nat :=
  match data.drop off with
  | b0 :: b1 :: b2 :: b3 :: _ =>
    some (b0 + b1 * 256 + b2 * 65536 + b3 * 16777216)
  | _ => none

/-- Contribution of one `.dex` payload (decompile.py:257-258): `some 0` when
the length/magic guard fails (the member is skipped), `some n` for a valid
header, `none` when the guard passes but `unpack_from` raises because the
payload is 96-99 bytes long (`struct.error`). -/
def dexContribution (bs : List Nat) : Option Nat :=
  if 96 ≤ bs.length ∧ isDexMagic bs then readU32LE bs 96
  else some 0

/-- The nested-archive scan (decompile.py:263-268), inside the inner
`try ... except Exception: pass`: a raised read or `struct.error` stops the
scan, keeping what was already accumulated. -/
def countInner : List ZipEntry → Nat
  | [] => 0
  | e :: rest =>
    if pyEndswith e.name ".dex" then
      match e.readData with
      | Except.error _ => 0
      | Except.ok bs =>
        match dexContribution bs with
        | none => 0
        | some n => n + countInner rest
    else countInner rest

/-- The outer member loop (decompile.py:254-270).  `openZip bs` models
`zipfile.ZipFile(io.BytesIO(bs))`: `none` = the constructor raised (caught by
the inner handler, the member is skipped).  A read failure or `struct.error`
on an outer member escapes to the outer handler: the members after it
contribute 0. -/
def countOuter (openZip : List Nat → Option (List ZipEntry)) :
    List ZipEntry → Nat
  | [] => 0
  | e :: rest =>
    if pyEndswith e.name ".dex" then
      match e.readData with
      | Except.error _ => 0
      | Except.ok bs =>
        match dexContribution bs with
        | none => 0
        | some n => n + countOuter openZip rest
    else if pyEndswith e.name ".apk" then
      match e.readData with
      | Except.error _ => 0
      | Except.ok bs =>
        match openZip bs with
        | none => countOuter openZip rest
        | some inner => countInner inner + countOuter openZip rest
    else countOuter openZip rest

/-- Model of `count_dex_classes` (decompile.py:246-273).  The archive argument is
`none` when `zipfile.ZipFile(apk_path)` itself raises (unreadable or
non-archive file): the outer handler turns that into a count of 0. -/
def count_dex_classes (openZip : List Nat → Option (List ZipEntry))
    (archive : Option (List ZipEntry)) : Nat :=
  match archive with
  | none => 0
  | some entries => countOuter openZip entries

/-! ### Progress monitor  (`monitor_decompile_progress`, decompile.py:290-305)

The monitor polls the output directory's `.java`-file count every 10 s and
prints a new progress value whenever the count changed since the last print.
A poll is modelled by the count it observes. -/

/-- The value one monitor print reports for file count `count`
(decompile.py:297-301): the percentage `min(count / total * 100, 99.9)` when
the expected class count is positive, else the raw running count. -/
def reportValue (total_classes count : Nat) : ℚ :=
  if 0 < total_classes then
    min ((count : ℚ) / (total_classes : ℚ) * 100) (999 / 10)
  else (count : ℚ)

/-- The sequence of values the monitor reports, given the sequence of polled
file counts and the previous printed count (`last_count`, initially 0): a
value is reported exactly when the polled count differs from the last
reported one (decompile.py:296-302). -/
def reports (total_classes : Nat) : List Nat → Nat → List ℚ
  | [], _ => []
  | c :: cs, last =>
    if c ≠ last then
      reportValue total_classes c :: reports total_classes cs c
    else reports total_classes cs last

/-! ### Decompilation supervisor  (`decompile_apk`, decompile.py:308-380) -/

/-- Outcome of the `jadx` subprocess for one invocation.
`completes javaFiles` = `subprocess.run` returned (any exit code) and the
output directory afterwards holds `javaFiles` `.java` files;
`timesOut` = the subprocess exceeded the 1800 s timeout, making
`subprocess.run` raise `subprocess.TimeoutExpired` (decompile.py:351-357). -/
inductive DecompileEvent
  | completes (javaFiles : Nat)
  | timesOut
deriving DecidableEq, Repr

/-- Model of `decompile_apk` (decompile.py:308-380): success is judged solely by
whether at least one `.java` file was produced (decompile.py:376-380), not by
the subprocess exit status.  `subprocess.run` is called with `timeout=1800`
and no surrounding `try`, so a timeout raises `subprocess.TimeoutExpired` out
of the function — modelled as `Except.error`. -/
def decompile_apk (ev : DecompileEvent) : Except Unit Bool :=
  match ev with
  | DecompileEvent.timesOut => Except.error ()
  | DecompileEvent.completes j => Except.ok (decide (j ≠ 0))

/-! ### Per-item pipeline  (`process_app`, decompile.py:387-426) -/

/-- Python truthiness of `current_version` at decompile.py:395 and 416:
`None` and the empty string are falsy. -/
def truthy : Option String → Bool
  | none => false
  | some s => !s.isEmpty

/-- Environment for one `process_app` call: the detail-page fetch, the two
download requests, and the subprocess outcome. -/
structure AppEnv where
  versionPage : Option AppPage
  fetch : FetchEnv
  decompile : DecompileEvent

/-- Result of one `process_app` call.  `outcome` is the returned boolean, or
`Except.error` when an exception escaped the call.  `fetched`, `decompOk` and
`wrote` are ghost observations: whether `download_apk` was invoked, whether
`decompile_apk` was invoked and returned `True`, and whether `save_version`
was invoked. -/
structure PResult where
  outcome : Except Unit Bool
  st : St
  fetched : Bool
  decompOk : Bool
  wrote : Bool

/-- Model of `process_app` (decompile.py:387-426): check the published version; skip
(return `True`) when it is known, equals the stored one and `force` is unset;
otherwise download (return `False` on fetch failure), decompile, persist the
version only on decompile success with a truthy version string, and delete the
scratch directory. -/
def process_app (env : AppEnv) (package : String) (force : Bool) (st : St) :
    PResult :=
  let current_version := check_version env.versionPage
  if truthy current_version ∧ get_stored_version st.ledger package = current_version
      ∧ force = false then
    ⟨Except.ok true, st, false, false, false⟩
  else
    match download_apk env.fetch package st with
    | (none, st1) => ⟨Except.ok false, st1, true, false, false⟩
    | (some _apk_path, st1) =>
      match decompile_apk env.decompile with
      | Except.error e => ⟨Except.error e, st1, true, false, false⟩
      | Except.ok success =>
        let st2 :=
          if success ∧ truthy current_version then
            { st1 with
              ledger := save_version st1.ledger package (current_version.getD "") }
          else st1
        let st3 := st2.setDir package none
        ⟨Except.ok success, st3, true, success,
          decide (success ∧ truthy current_version)⟩

/-! ### Run loop  (`main`, decompile.py:499-507)

The loop `results[app["package"]] = process_app(...)` has no exception
handler: an exception raised inside `process_app` aborts the loop (and the
run) with the results accumulated so far discarded. -/

/-- The per-item loop of `main` (decompile.py:501-507): record each item's
boolean outcome; an escaping exception aborts the whole loop. -/
def run_loop (force : Bool) :
    List (String × AppEnv) → St → List (String × Bool) →
    Except Unit (List (String × Bool) × St)
  | [], st, acc => Except.ok (acc, st)
  | (package, env) :: rest, st, acc =>
    let r := process_app env package force st
    match r.outcome with
    | Except.error e => Except.error e
    | Except.ok b => run_loop force rest r.st (acc ++ [(package, b)])

/-! ### Catalog discovery  (`discover_apps`, decompile.py:73-145)

For each developer, in list order, the function fetches listing pages starting
at page 1 and keeps paginating while the request succeeded, the page yielded
app links, and a `?page=<n+1>` marker occurs in the page text.  Each listing
page is modelled by the app links its regex extraction yields, the name map
its per-link name search builds, and whether the next-page marker is present.
Every app link whose package id was not yet seen — across all pages of all
developers, in iteration order — appends one catalog entry. -/

/-- One fetched listing page: the `(app_path, package)` pairs matched by the
app-link regex (decompile.py:101-104) in page order, the display-name map the
per-link name search builds (decompile.py:113-119, keyed by package, already
stripped; `none` = no name matched), and whether the `?page=<n+1>` marker
occurs in the page text (decompile.py:136-137). -/
structure ListingPage where
  app_links : List (String × String)
  names : String → Option String
  next : Bool

/-- Outcome of fetching one listing page: the request failed (caught at
decompile.py:95-97, stopping pagination for this developer) or returned a
page. -/
inductive PageFetch
  | failed
  | ok (page : ListingPage)

/-- One developer to scrape: its name and its listing pages in page order
(page 1 first).  Paginating past the end of the list behaves like a failed
request. -/
structure VendorEnv where
  developer : String
  pages : List PageFetch

/-- The pagination loop for one developer (decompile.py:88-141): visit pages
from page 1; stop on a failed request, on a page with no app links, or when
the next-page marker is absent.  Returns the pages actually processed. -/
def visit_pages : List PageFetch → List ListingPage
  | [] => []
  | PageFetch.failed :: _ => []
  | PageFetch.ok p :: rest =>
    if p.app_links.isEmpty then []
    else if p.next then p :: visit_pages rest
    else [p]

/-- One discovered catalog entry (the dict built at decompile.py:125-130). -/
structure CatalogEntry where
  app_path : String
  package : String
  name : String
  developer : String
deriving DecidableEq, Repr

/-- Model of `app_path.rstrip("/")` (decompile.py:126). -/
def rstripSlash (s : String) : String :=
  String.mk ((s.toList.reverse.dropWhile (fun c => c = '/')).reverse)

/-- The entries one processed page contributes, before deduplication
(decompile.py:122-130): one per app link, in page order, named from the
page's name map with the package id as fallback. -/
def pageEntries (dev : String) (p : ListingPage) : List CatalogEntry :=
  p.app_links.map (fun link =>
    ⟨rstripSlash link.1, link.2, (p.names link.2).getD link.2, dev⟩)

/-- All candidate entries of a run in iteration order: developers in list
order, each developer's processed pages in page order, each page's links in
page order. -/
def allEntries (vendors : List VendorEnv) : List CatalogEntry :=
  vendors.flatMap (fun v =>
    (visit_pages v.pages).flatMap (pageEntries v.developer))

/-- The `seen_packages` deduplication (decompile.py:122-124): walk the
candidate entries in iteration order, keeping an entry exactly when its
package id has not been seen before. -/
def dedupByPackage : List CatalogEntry → List String → List CatalogEntry
  | [], _ => []
  | e :: es, seen =>
    if e.package ∈ seen then dedupByPackage es seen
    else e :: dedupByPackage es (e.package :: seen)

/-- Model of `discover_apps` (decompile.py:73-145): the candidate entries in iteration
order, deduplicated by package id with the first occurrence kept.  The
source's single `seen_packages` set and `all_apps` list persist across pages
and developers, which is exactly a first-wins deduplication of the flattened
iteration order. -/
def discover_apps (vendors : List VendorEnv) : List CatalogEntry :=
  dedupByPackage (allEntries vendors) []

/-! ## Supporting lemmas -/

theorem St.setDir_ledger (st : St) (p : String) (v : Option (List String)) :
    (st.setDir p v).ledger = st.ledger := rfl

theorem download_apk_snd_ledger (env : FetchEnv) (package : String) (st : St) :
    ((download_apk env package st).2).ledger = st.ledger := by
  unfold download_apk
  repeat' split
  all_goals rfl

theorem save_version_self (ledger : Ledger) (package version : String) :
    save_version ledger package version package = some version := by
  simp [save_version]

theorem truthy_getD {o : Option String} (h : truthy o = true) :
    some (o.getD "") = o := by
  cases o <;> simp_all [truthy]

/-! ## Claims -/

/-- C1: for every processed item, the version ledger entry for that item's
identity is written if and only if the decompilation step ran and succeeded
and the version check yielded a truthy (non-empty) version string; when no
write happens the stored entry is unchanged, and when one happens it holds
exactly the observed version (decompile.py:416-418). -/
theorem c1_ledger_write_iff (env : AppEnv) (package : String) (force : Bool)
    (st : St) :
    ((process_app env package force st).wrote
        = ((process_app env package force st).decompOk
            && truthy (check_version env.versionPage)))
    ∧ (process_app env package force st).st.ledger package
        = (if (process_app env package force st).wrote = true
           then check_version env.versionPage
           else st.ledger package) := by
  unfold process_app
  dsimp only
  split
  · simp
  · split
    case _ st1 heq =>
      have hl : st1.ledger = st.ledger := by
        have h2 := download_apk_snd_ledger env.fetch package st
        rw [heq] at h2
        exact h2
      simp [hl]
    case _ apk st1 heq =>
      have hl : st1.ledger = st.ledger := by
        have h2 := download_apk_snd_ledger env.fetch package st
        rw [heq] at h2
        exact h2
      split
      · simp [hl]
      case _ success hdec =>
        constructor
        · simp
        · dsimp only
          split
          case isTrue h =>
            have hw : decide (success = true ∧ truthy (check_version env.versionPage) = true)
                = true := by simp [h.1, h.2]
            rw [hw]
            simpa [St.setDir, save_version_self] using truthy_getD h.2
          case isFalse h =>
            have hw : decide (success = true ∧ truthy (check_version env.versionPage) = true)
                = false := by simpa using h
            rw [hw]
            simp [St.setDir, hl]

/-- C4: with a known observed version equal to the stored one and `force`
unset, `process_app` performs no fetch, reports success and leaves the state
untouched (decompile.py:402-404); with stored version "1.0" and observed
version "2.0" a fetch occurs and, whenever the decompile step succeeds, the
ledger entry becomes "2.0" (decompile.py:406-418). -/
theorem c4_version_gate (env : AppEnv) (package : String) (st : St) :
    (∀ v : String, check_version env.versionPage = some v → v ≠ "" →
      st.ledger package = some v →
      process_app env package false st
        = ⟨Except.ok true, st, false, false, false⟩)
    ∧ (check_version env.versionPage = some "2.0" →
       st.ledger package = some "1.0" →
       (process_app env package false st).fetched = true
       ∧ ((process_app env package false st).decompOk = true →
          (process_app env package false st).st.ledger package = some "2.0")) := by
  constructor
  · intro v hcv hv hst
    unfold process_app
    dsimp only
    rw [hcv]
    rw [if_pos]
    refine ⟨?_, ?_, rfl⟩
    · have hbe : v.isEmpty = false := by
        cases hbe : v.isEmpty
        · rfl
        · exact absurd ((String.isEmpty_iff v).mp hbe) hv
      simp [truthy, hbe]
    · rw [get_stored_version, hst]
  · intro hcv hst
    unfold process_app
    dsimp only
    rw [hcv]
    rw [if_neg]
    · split
      · exact ⟨rfl, by intro h; exact absurd h (by simp)⟩
      case _ apk st1 heq =>
        split
        · exact ⟨rfl, by intro h; exact absurd h (by simp)⟩
        case _ success hdec =>
          refine ⟨rfl, ?_⟩
          intro hsucc
          dsimp only at hsucc ⊢
          rw [hsucc] at *
          rw [if_pos ⟨rfl, by simp [truthy]; decide⟩]
          simp [St.setDir, save_version_self]
    · rintro ⟨-, hstored, -⟩
      rw [get_stored_version, hst] at hstored
      exact absurd hstored (by simp)

/-- C5: when the download page and link resolution succeed and the payload
request returns `size` bytes, a payload below the 0.5 MB floor is deleted
(the scratch directory keeps no file) and the fetch reports failure, while a
payload at or above the floor is kept and its path returned
(decompile.py:229-239). -/
theorem c5_size_floor (env : FetchEnv) (package : String) (st : St)
    (page : DownloadPage) (size : Nat)
    (hp : env.page = some page) (hl : (select_link page).isSome = true)
    (hd : env.download = some size) :
    (size < minApkBytes →
      (download_apk env package st).1 = none
      ∧ (download_apk env package st).2.apkDir package = some [])
    ∧ (minApkBytes ≤ size →
      (download_apk env package st).1 = some env.fname
      ∧ (download_apk env package st).2.apkDir package = some [env.fname]) := by
  unfold download_apk
  rw [hp, hd]
  dsimp only
  rcases hsel : select_link page with _ | l
  · rw [hsel] at hl
    simp at hl
  · dsimp only
    constructor
    · intro hsize
      rw [if_pos hsize]
      exact ⟨rfl, by simp [St.setDir]⟩
    · intro hsize
      rw [if_neg (Nat.not_lt.mpr hsize)]
      exact ⟨rfl, by simp [St.setDir]⟩

/-- C6: the two candidate link shapes are tried in fixed priority order — the
first storage-redirect (`/r2?u=`) match wins over any CDN-redirect (`/d?u=`)
match, the first CDN match is used only when no storage match exists, and the
fetch fails when neither shape occurs (decompile.py:197-206). -/
theorem c6_link_priority (page : DownloadPage) (env : FetchEnv)
    (package : String) (st : St) :
    (∀ u rest, page.r2_links = u :: rest →
      select_link page = some (DlLink.r2 u))
    ∧ (∀ u rest, page.r2_links = [] → page.d_links = u :: rest →
      select_link page = some (DlLink.cdn u))
    ∧ (page.r2_links = [] → page.d_links = [] → select_link page = none)
    ∧ (env.page = some page → page.r2_links = [] → page.d_links = [] →
      (download_apk env package st).1 = none) := by
  refine ⟨?_, ?_, ?_, ?_⟩
  · intro u rest h
    unfold select_link
    rw [h]
  · intro u rest h1 h2
    unfold select_link
    rw [h1, h2]
  · intro h1 h2
    unfold select_link
    rw [h1, h2]
  · intro hp h1 h2
    have hnone : select_link page = none := by unfold select_link; rw [h1, h2]
    unfold download_apk
    rw [hp]
    dsimp only
    rw [hnone]

/-- C8: `check_version` applies its extraction strategies in order — the
structured `softwareVersion` field first, then the version-labeled page
element (stripped) — returning the first match and `none` when both patterns
are absent or the page request itself failed (decompile.py:152-172).  The
regex character classes `[^"]+` and `[^<]+` make any raw match nonempty. -/
theorem c8_version_extraction (page : AppPage) :
    check_version none = none
    ∧ (∀ v, page.softwareVersion = some v →
        check_version (some page) = some v)
    ∧ (∀ s, page.softwareVersion = none → page.versionEl = some s →
        check_version (some page) = some s.trim)
    ∧ (page.softwareVersion = none → page.versionEl = none →
        check_version (some page) = none) := by
  refine ⟨rfl, ?_, ?_, ?_⟩
  · intro v hv
    unfold check_version
    dsimp only
    rw [hv]
  · intro s h1 h2
    unfold check_version
    dsimp only
    rw [h1, h2]
  · intro h1 h2
    unfold check_version
    dsimp only
    rw [h1, h2]

/-! ## Concrete scenario values used by the evaluation theorems -/

/-- A download page with one storage-redirect link. -/
def samplePage : DownloadPage := ⟨["/r2?u=abc"], []⟩

/-- A fetch environment whose requests all succeed with a 600000-byte
payload. -/
def fetchOkEnv : FetchEnv := ⟨some samplePage, some 600000, "app.apk"⟩

/-- A fetch environment whose download page holds no link of either shape. -/
def fetchNoLinksEnv : FetchEnv := ⟨some ⟨[], []⟩, some 600000, "app.apk"⟩

/-- A detail page carrying version `v` in the structured field. -/
def pageWithVersion (v : String) : AppPage := ⟨some v, none⟩

/-- Initial state: no scratch directories, empty ledger. -/
def st0 : St := ⟨fun _ => none, fun _ => none⟩

/-- C2 (refuted by the code): `subprocess.run(..., timeout=1800)` at
decompile.py:351-357 is not wrapped in any `try`, and neither `process_app`
nor the loop in `main` (decompile.py:502-507) catches exceptions, so a
decompiler timeout raises `subprocess.TimeoutExpired` out of per-item
processing and aborts the run loop: here the first item times out and the run
loop ends in an exception instead of recording a failure and processing the
second item. -/
theorem c2_timeout_escapes_run_loop :
    (process_app ⟨some (pageWithVersion "9.9"), fetchOkEnv, DecompileEvent.timesOut⟩
        "pkg.one" false st0).outcome = Except.error ()
    ∧ run_loop false
        [("pkg.one",
          ⟨some (pageWithVersion "9.9"), fetchOkEnv, DecompileEvent.timesOut⟩),
         ("pkg.two",
          ⟨some (pageWithVersion "9.9"), fetchOkEnv, DecompileEvent.completes 3⟩)]
        st0 []
      = Except.error () := by
  exact ⟨rfl, rfl⟩

/-- C3 (counterexample to the claim as stated): a fetch that finds no
download link on the download page has already created the scratch directory
(decompile.py:181-184), and `process_app` returns `False` at
decompile.py:409-410 before reaching the cleanup at decompile.py:421-424, so
the scratch directory still exists when per-item processing returns. -/
theorem c3_fetch_failure_leaves_scratch_dir :
    (process_app ⟨some (pageWithVersion "9.9"), fetchNoLinksEnv,
        DecompileEvent.completes 3⟩ "pkg.c3" false st0).fetched = true
    ∧ (process_app ⟨some (pageWithVersion "9.9"), fetchNoLinksEnv,
        DecompileEvent.completes 3⟩ "pkg.c3" false st0).outcome = Except.ok false
    ∧ (process_app ⟨some (pageWithVersion "9.9"), fetchNoLinksEnv,
        DecompileEvent.completes 3⟩ "pkg.c3" false st0).st.apkDir "pkg.c3"
      = some [] := by
  exact ⟨rfl, rfl, rfl⟩

/-- C3 (amended): the scratch artifact directory is deleted before
`process_app` returns whenever the fetch succeeded and the decompiler
subprocess returned (success or failure alike); when the fetch itself fails —
or the subprocess times out — the directory is left in place and is only
cleared at the start of the next fetch for that identity
(decompile.py:420-424, 181-184). -/
theorem c3_cleanup_after_successful_fetch (env : AppEnv) (package : String)
    (force : Bool) (st : St) (j : Nat)
    (hfetch : ((download_apk env.fetch package st).1).isSome = true)
    (hdec : env.decompile = DecompileEvent.completes j) :
    (process_app env package force st).fetched = true →
    (process_app env package force st).st.apkDir package = none := by
  unfold process_app
  dsimp only
  split
  · intro h
    exact absurd h (by simp)
  · split
    case _ st1 heq =>
      rw [heq] at hfetch
      simp at hfetch
    case _ apk st1 heq =>
      rw [hdec]
      dsimp only [decompile_apk]
      intro _
      simp [St.setDir]

/-- A state whose ledger stores version "1.0" for every package. -/
def stOne : St := ⟨fun _ => none, fun _ => some "1.0"⟩

/-- A download page carrying both link shapes. -/
def bothLinksPage : DownloadPage :=
  ⟨["/r2?u=abc"], ["https://apkcombo.com/d?u=xyz"]⟩

/-- Concrete instance of the amended cleanup property: a successful fetch
followed by a failed decompilation (zero `.java` files produced) still ends
with the scratch directory deleted. -/
theorem c3_cleanup_after_successful_fetch_witness :
    (process_app ⟨some (pageWithVersion "9.9"), fetchOkEnv,
        DecompileEvent.completes 0⟩ "pkg.w3" false st0).st.apkDir "pkg.w3"
      = none :=
  c3_cleanup_after_successful_fetch
    ⟨some (pageWithVersion "9.9"), fetchOkEnv, DecompileEvent.completes 0⟩
    "pkg.w3" false st0 0 (by decide) rfl rfl

/-- Concrete instance of the version gate: stored "1.0" and observed "1.0"
skip with no fetch; stored "1.0" and observed "2.0" fetch and, the decompile
having succeeded, store "2.0". -/
theorem c4_version_gate_witness :
    process_app ⟨some (pageWithVersion "1.0"), fetchOkEnv,
        DecompileEvent.completes 5⟩ "com.example.app" false stOne
      = ⟨Except.ok true, stOne, false, false, false⟩
    ∧ (process_app ⟨some (pageWithVersion "2.0"), fetchOkEnv,
        DecompileEvent.completes 5⟩ "com.example.app" false stOne).fetched = true
    ∧ (process_app ⟨some (pageWithVersion "2.0"), fetchOkEnv,
        DecompileEvent.completes 5⟩ "com.example.app" false stOne).st.ledger
        "com.example.app" = some "2.0" := by
  refine ⟨?_, ?_, ?_⟩
  · exact (c4_version_gate
      ⟨some (pageWithVersion "1.0"), fetchOkEnv, DecompileEvent.completes 5⟩
      "com.example.app" stOne).1 "1.0" rfl (by decide) rfl
  · exact ((c4_version_gate
      ⟨some (pageWithVersion "2.0"), fetchOkEnv, DecompileEvent.completes 5⟩
      "com.example.app" stOne).2 rfl rfl).1
  · exact ((c4_version_gate
      ⟨some (pageWithVersion "2.0"), fetchOkEnv, DecompileEvent.completes 5⟩
      "com.example.app" stOne).2 rfl rfl).2 (by decide)

/-- Concrete instance of the size floor: a 100 KB (102400-byte) payload is
deleted and the fetch fails; a 600000-byte payload is kept and returned. -/
theorem c5_size_floor_witness :
    ((download_apk ⟨some samplePage, some 102400, "small.apk"⟩ "pkg.c5" st0).1
        = none
      ∧ (download_apk ⟨some samplePage, some 102400, "small.apk"⟩ "pkg.c5"
          st0).2.apkDir "pkg.c5" = some [])
    ∧ ((download_apk ⟨some samplePage, some 600000, "big.apk"⟩ "pkg.c5" st0).1
        = some "big.apk"
      ∧ (download_apk ⟨some samplePage, some 600000, "big.apk"⟩ "pkg.c5"
          st0).2.apkDir "pkg.c5" = some ["big.apk"]) := by
  constructor
  · exact (c5_size_floor ⟨some samplePage, some 102400, "small.apk"⟩ "pkg.c5"
      st0 samplePage 102400 rfl rfl rfl).1 (by decide)
  · exact (c5_size_floor ⟨some samplePage, some 600000, "big.apk"⟩ "pkg.c5"
      st0 samplePage 600000 rfl rfl rfl).2 (by decide)

/-- Concrete instance of the link priority: with both shapes present the
storage-redirect link wins; with only a CDN link that one is used; with
neither the fetch fails. -/
theorem c6_link_priority_witness :
    select_link bothLinksPage = some (DlLink.r2 "/r2?u=abc")
    ∧ select_link ⟨[], ["https://apkcombo.com/d?u=xyz"]⟩
      = some (DlLink.cdn "https://apkcombo.com/d?u=xyz")
    ∧ select_link ⟨[], []⟩ = none
    ∧ (download_apk fetchNoLinksEnv "pkg.c6" st0).1 = none := by
  refine ⟨?_, ?_, ?_, ?_⟩
  · exact (c6_link_priority bothLinksPage fetchOkEnv "pkg.c6" st0).1
      "/r2?u=abc" [] rfl
  · exact (c6_link_priority ⟨[], ["https://apkcombo.com/d?u=xyz"]⟩ fetchOkEnv
      "pkg.c6" st0).2.1 "https://apkcombo.com/d?u=xyz" [] rfl rfl
  · exact (c6_link_priority ⟨[], []⟩ fetchOkEnv "pkg.c6" st0).2.2.1 rfl rfl
  · exact (c6_link_priority ⟨[], []⟩ fetchNoLinksEnv "pkg.c6" st0).2.2.2
      rfl rfl rfl

/-- Concrete instance of the extraction order: a failed request gives no
version; a page with both fields yields the structured one; a page with only
the fallback element yields its stripped text; a page with neither yields
none. -/
theorem c8_version_extraction_witness :
    check_version none = none
    ∧ check_version (some ⟨some "4.1", some " 9.9 "⟩) = some "4.1"
    ∧ check_version (some ⟨none, some " 9.9 "⟩) = some (" 9.9 ".trim)
    ∧ check_version (some ⟨none, none⟩) = none := by
  refine ⟨(c8_version_extraction ⟨some "4.1", some " 9.9 "⟩).1, ?_, ?_, ?_⟩
  · exact (c8_version_extraction ⟨some "4.1", some " 9.9 "⟩).2.1 "4.1" rfl
  · exact (c8_version_extraction ⟨none, some " 9.9 "⟩).2.2.1 " 9.9 " rfl rfl
  · exact (c8_version_extraction ⟨none, none⟩).2.2.2 rfl rfl

theorem dedupByPackage_filter_of_mem (p : String) :
    ∀ (l : List CatalogEntry) (seen : List String), p ∈ seen →
      (dedupByPackage l seen).filter (fun e => e.package = p) = []
  | [], _, _ => rfl
  | e :: es, seen, hp => by
    unfold dedupByPackage
    by_cases hmem : e.package ∈ seen
    · rw [if_pos hmem]
      exact dedupByPackage_filter_of_mem p es seen hp
    · rw [if_neg hmem]
      have hne : ¬(e.package = p) := fun h => hmem (h ▸ hp)
      rw [List.filter_cons_of_neg (by simpa using hne)]
      exact dedupByPackage_filter_of_mem p es (e.package :: seen)
        (List.mem_cons_of_mem _ hp)

theorem dedupByPackage_filter_eq_find (p : String) :
    ∀ (l : List CatalogEntry) (seen : List String), p ∉ seen →
      (dedupByPackage l seen).filter (fun e => e.package = p)
        = ((l.find? (fun e => e.package = p)).toList)
  | [], _, _ => rfl
  | e :: es, seen, hp => by
    unfold dedupByPackage
    by_cases hmem : e.package ∈ seen
    · have hne : ¬(e.package = p) := fun h => hp (h ▸ hmem)
      rw [if_pos hmem, List.find?_cons_of_neg _ (by simpa using hne)]
      exact dedupByPackage_filter_eq_find p es seen hp
    · rw [if_neg hmem]
      by_cases he : e.package = p
      · rw [List.filter_cons_of_pos (by simpa using he),
          List.find?_cons_of_pos _ (by simpa using he)]
        rw [dedupByPackage_filter_of_mem p es (e.package :: seen)
          (he ▸ List.mem_cons_self _ _)]
        rfl
      · rw [List.filter_cons_of_neg (by simpa using he),
          List.find?_cons_of_neg _ (by simpa using he)]
        exact dedupByPackage_filter_eq_find p es (e.package :: seen)
          (by simp only [List.mem_cons, not_or]
              exact ⟨fun h => he h.symm, hp⟩)

theorem mem_dedupByPackage_not_seen :
    ∀ (l : List CatalogEntry) (seen : List String) (e : CatalogEntry),
      e ∈ dedupByPackage l seen → e.package ∉ seen
  | [], _, _, h => absurd h (List.not_mem_nil _)
  | a :: es, seen, e, h => by
    unfold dedupByPackage at h
    by_cases hmem : a.package ∈ seen
    · rw [if_pos hmem] at h
      exact mem_dedupByPackage_not_seen es seen e h
    · rw [if_neg hmem] at h
      rcases List.mem_cons.mp h with rfl | h2
      · exact hmem
      · have := mem_dedupByPackage_not_seen es (a.package :: seen) e h2
        exact fun hs => this (List.mem_cons_of_mem _ hs)

theorem dedupByPackage_nodup :
    ∀ (l : List CatalogEntry) (seen : List String),
      ((dedupByPackage l seen).map (fun e => e.package)).Nodup
  | [], _ => List.nodup_nil
  | e :: es, seen => by
    unfold dedupByPackage
    by_cases hmem : e.package ∈ seen
    · rw [if_pos hmem]
      exact dedupByPackage_nodup es seen
    · rw [if_neg hmem]
      rw [List.map_cons, List.nodup_cons]
      refine ⟨?_, dedupByPackage_nodup es (e.package :: seen)⟩
      intro hmap
      obtain ⟨a, ha, hpkg⟩ := List.mem_map.mp hmap
      exact mem_dedupByPackage_not_seen es (e.package :: seen) a ha
        (hpkg ▸ List.mem_cons_self _ _)

/-- C7: discovery returns at most one catalog entry per package identity, and
the entry kept for an identity is exactly the first candidate entry in
iteration order (developers in list order, pages in order, links in page
order), so a duplicate identity is attributed to the first developer at which
it was seen and later occurrences are dropped (decompile.py:122-131). -/
theorem c7_dedup_first_wins (vendors : List VendorEnv) (p : String) :
    ((discover_apps vendors).map (fun e => e.package)).Nodup
    ∧ (discover_apps vendors).filter (fun e => e.package = p)
      = ((allEntries vendors).find? (fun e => e.package = p)).toList := by
  exact ⟨dedupByPackage_nodup (allEntries vendors) [],
    dedupByPackage_filter_eq_find p (allEntries vendors) []
      (List.not_mem_nil p)⟩

theorem reportValue_mono (total : Nat) {a b : Nat} (h : a ≤ b) :
    reportValue total a ≤ reportValue total b := by
  unfold reportValue
  have hc : (a : ℚ) ≤ (b : ℚ) := by exact_mod_cast h
  split
  · refine min_le_min ?_ le_rfl
    calc (a : ℚ) / (total : ℚ) * 100
        = (a : ℚ) * (((total : ℚ))⁻¹ * 100) := by ring
      _ ≤ (b : ℚ) * (((total : ℚ))⁻¹ * 100) := by
          apply mul_le_mul_of_nonneg_right hc
          positivity
      _ = (b : ℚ) / (total : ℚ) * 100 := by ring
  · exact hc

theorem reports_chain (total : Nat) :
    ∀ (counts : List Nat) (last : Nat), counts.Chain' (· ≤ ·) →
      (∀ c, counts.head? = some c → last ≤ c) →
      List.Chain' (· ≤ ·)
        (reportValue total last :: reports total counts last)
  | [], _, _, _ => by simp [reports]
  | c :: cs, last, hch, hhd => by
    have hlc : last ≤ c := hhd c rfl
    have hch' : cs.Chain' (· ≤ ·) := hch.tail
    have hhd' : ∀ d, cs.head? = some d → c ≤ d := by
      intro d hd
      cases cs with
      | nil => simp at hd
      | cons e es =>
        simp only [List.head?_cons, Option.some.injEq] at hd
        subst hd
        exact (List.chain'_cons.mp hch).1
    unfold reports
    by_cases hne : c ≠ last
    · rw [if_pos hne]
      exact List.chain'_cons.mpr ⟨reportValue_mono total hlc,
        reports_chain total cs c hch' hhd'⟩
    · rw [if_neg hne]
      push_neg at hne
      subst hne
      exact reports_chain total cs c hch' hhd'

theorem reports_mem (total : Nat) :
    ∀ (counts : List Nat) (last : Nat) (q : ℚ),
      q ∈ reports total counts last → ∃ c ∈ counts, q = reportValue total c
  | [], _, _, h => absurd h (List.not_mem_nil _)
  | c :: cs, last, q, h => by
    unfold reports at h
    by_cases hne : c ≠ last
    · rw [if_pos hne] at h
      rcases List.mem_cons.mp h with rfl | h2
      · exact ⟨c, List.mem_cons_self _ _, rfl⟩
      · obtain ⟨d, hd, hq⟩ := reports_mem total cs c q h2
        exact ⟨d, List.mem_cons_of_mem _ hd, hq⟩
    · rw [if_neg hne] at h
      obtain ⟨d, hd, hq⟩ := reports_mem total cs last q h
      exact ⟨d, List.mem_cons_of_mem _ hd, hq⟩

/-- C9: given that the polled `.java`-file counts are non-decreasing (the
decompiler only adds files to the freshly cleared output directory), the
values the monitor reports over one invocation are monotonically
non-decreasing; every reported value is `min(count/total*100, 99.9)` for some
polled count when the expected class count is positive — hence strictly below
100% while the monitor runs — and the raw running count otherwise
(decompile.py:290-305); the `100.0%` line is printed by `decompile_apk` only
after the subprocess returned and the monitor was joined
(decompile.py:359-363). -/
theorem c9_progress_bound (total : Nat) (counts : List Nat)
    (h : counts.Chain' (· ≤ ·)) :
    List.Chain' (· ≤ ·) (reports total counts 0)
    ∧ ∀ q ∈ reports total counts 0,
        (∃ c ∈ counts, q = reportValue total c)
        ∧ (0 < total → q < 100)
        ∧ (total = 0 → ∃ c ∈ counts, q = (c : ℚ)) := by
  constructor
  · exact (reports_chain total counts 0 h (fun c _ => Nat.zero_le c)).tail
  · intro q hq
    obtain ⟨c, hc, rfl⟩ := reports_mem total counts 0 q hq
    refine ⟨⟨c, hc, rfl⟩, ?_, ?_⟩
    · intro htot
      unfold reportValue
      rw [if_pos htot]
      calc min ((c : ℚ) / (total : ℚ) * 100) (999 / 10)
          ≤ (999 / 10 : ℚ) := min_le_right _ _
        _ < 100 := by norm_num
    · intro htot
      subst htot
      exact ⟨c, hc, by unfold reportValue; rw [if_neg (by simp)]⟩

/-- Concrete instance of the progress bound: expected count 20, polled counts
0, 5, 10 — two reports, 25% then 50%, non-decreasing and below 100%. -/
theorem c9_progress_bound_witness :
    List.Chain' (· ≤ ·) (reports 20 [0, 5, 10] 0)
    ∧ ∀ q ∈ reports 20 [0, 5, 10] 0,
        (∃ c ∈ ([0, 5, 10] : List Nat), q = reportValue 20 c)
        ∧ (0 < 20 → q < 100)
        ∧ (20 = 0 → ∃ c ∈ ([0, 5, 10] : List Nat), q = (c : ℚ)) :=
  c9_progress_bound 20 [0, 5, 10] (by norm_num [List.chain'_cons])

/-- C10: the expected-class-count computation is total — it is a plain
function into `Nat`, so it returns a non-negative integer on every input: an
unreadable or non-archive file yields 0, a `.dex` member failing the
length/magic guard silently contributes 0, an `.apk` member whose payload
does not open as a zip silently contributes 0 (decompile.py:246-273); and a
resulting expected count of 0 makes the progress monitor report the raw
running count instead of a percentage (decompile.py:297-301). -/
theorem c10_count_dex_total (openZip : List Nat → Option (List ZipEntry)) :
    count_dex_classes openZip none = 0
    ∧ (∀ archive, 0 ≤ count_dex_classes openZip archive)
    ∧ (∀ (name : String) (bs : List Nat) (rest : List ZipEntry),
        pyEndswith name ".dex" = true →
        ¬(96 ≤ bs.length ∧ isDexMagic bs = true) →
        countOuter openZip (⟨name, Except.ok bs⟩ :: rest)
          = countOuter openZip rest)
    ∧ (∀ (name : String) (bs : List Nat) (rest : List ZipEntry),
        pyEndswith name ".dex" = false → pyEndswith name ".apk" = true →
        openZip bs = none →
        countOuter openZip (⟨name, Except.ok bs⟩ :: rest)
          = countOuter openZip rest)
    ∧ (∀ count : Nat, reportValue 0 count = (count : ℚ)) := by
  refine ⟨rfl, fun _ => Nat.zero_le _, ?_, ?_, ?_⟩
  · intro name bs rest hname hbad
    have hdc : dexContribution bs = some 0 := by
      unfold dexContribution
      rw [if_neg hbad]
    conv_lhs => rw [countOuter]
    simp [hname, hdc]
  · intro name bs rest hdex hapk hzip
    conv_lhs => rw [countOuter]
    simp [hdex, hapk, hzip]
  · intro count
    unfold reportValue
    rw [if_neg (by simp)]

/-- Concrete instance of the count totality: an unopenable archive counts 0;
a `.dex` member with a bad magic contributes 0; an `.apk` member whose bytes
are not a zip contributes 0; with expected count 0 the monitor reports the
raw count 7. -/
theorem c10_count_dex_total_witness :
    count_dex_classes (fun _ => none) none = 0
    ∧ countOuter (fun _ => none) [⟨"classes.dex", Except.ok [1, 2, 3]⟩] = 0
    ∧ countOuter (fun _ => none) [⟨"inner.apk", Except.ok [9]⟩] = 0
    ∧ reportValue 0 7 = (7 : ℚ) := by
  refine ⟨(c10_count_dex_total (fun _ => none)).1, ?_, ?_,
    (c10_count_dex_total (fun _ => none)).2.2.2.2 7⟩
  · exact ((c10_count_dex_total (fun _ => none)).2.2.1 "classes.dex" [1, 2, 3]
      [] (by decide) (by decide)).trans rfl
  · exact ((c10_count_dex_total (fun _ => none)).2.2.2.1 "inner.apk" [9] []
      (by decide) (by decide) rfl).trans rfl

end Decompile
